import Mathlib

/-!
Verification development for the authtara SDK client
(`src/index.ts`, `src/errors.ts`, `src/storage.ts`, `src/react.tsx`).

The TypeScript sources are shallowly embedded: every operation of the
`AuthClient` class becomes a pure Lean function from the client state and
the outcome of its single HTTP round trip to the new state, the list of
events it emits, and its result (`Except` models a thrown error versus a
returned value).  The event emitter and the storage manager are embedded
as pure functions as well.
-/

namespace AuthSdk

/-- Field-level validation failure `{field, message, code}` (errors.ts). -/
structure FieldError where
  field : String
  message : String
  code : String
deriving DecidableEq, Repr

/-- Discriminant distinguishing the classes of the error taxonomy
(errors.ts): `AuthError` itself and its four subclasses.  An `instanceof`
test in the TypeScript source corresponds to inspecting this tag. -/
inductive ErrKind where
  | base
  | authentication
  | validation
  | network
  | notFound
deriving DecidableEq, Repr

/-- The data carried by a value of class `AuthError` or one of its
subclasses (errors.ts lines 5-22). -/
structure AuthError where
  kind : ErrKind
  message : String
  code : Option String
  statusCode : Option Nat
  errors : Option (List FieldError)
deriving DecidableEq, Repr

/-- Constructor `new AuthError(message, code, statusCode, errors)`. -/
def mkAuthError (message : String) (code : Option String)
    (statusCode : Option Nat) (errors : Option (List FieldError)) : AuthError :=
  ⟨.base, message, code, statusCode, errors⟩

/-- Constructor `new AuthenticationError(message, statusCode)`
(errors.ts lines 24-29): code `AUTHENTICATION_ERROR`. -/
def mkAuthenticationError (message : String) (statusCode : Nat) : AuthError :=
  ⟨.authentication, message, some "AUTHENTICATION_ERROR", some statusCode, none⟩

/-- Constructor `new ValidationError(message, errors)`
(errors.ts lines 31-39): code `VALIDATION_ERROR`, fixed status 422. -/
def mkValidationError (message : String)
    (errors : Option (List FieldError)) : AuthError :=
  ⟨.validation, message, some "VALIDATION_ERROR", some 422, errors⟩

/-- Constructor `new NetworkError(message)` (errors.ts lines 41-46):
code `NETWORK_ERROR`, default status 0. -/
def mkNetworkError (message : String) : AuthError :=
  ⟨.network, message, some "NETWORK_ERROR", some 0, none⟩

/-- Constructor `new NotFoundError(message, statusCode)`
(errors.ts lines 48-53): code `NOT_FOUND`. -/
def mkNotFoundError (message : String) (statusCode : Nat) : AuthError :=
  ⟨.notFound, message, some "NOT_FOUND", some statusCode, none⟩

/-- Per-application profile attached to a user (types.ts). -/
structure ApplicationUser where
  id : String
  metadata : List (String × String)
  roles : List String
  firstSeenAt : String
  lastActiveAt : String
deriving DecidableEq, Repr

/-- A user value as received from the server (types.ts). -/
structure User where
  id : String
  email : String
  name : String
  avatar : Option String
  applicationUser : Option ApplicationUser
deriving DecidableEq, Repr

/-- Tenant application identity (types.ts). -/
structure Application where
  id : String
  name : String
deriving DecidableEq, Repr

/-- Session value (types.ts). -/
structure Session where
  id : String
  expiresAt : String
deriving DecidableEq, Repr

/-- The `{user, application, session?}` envelope returned by sign-up and
sign-in (types.ts `AuthResult`). -/
structure AuthResult where
  user : User
  application : Application
  session : Option Session
deriving DecidableEq, Repr

/-- Nested `error` object inside an error response body
(index.ts lines 338-342). -/
structure NestedError where
  message : Option String
  code : Option String
  errors : Option (List FieldError)
deriving DecidableEq, Repr

/-- The fields of a parsed JSON object body that the client ever reads:
the error-decoding fields `message` / `code` / `errors` / `error`
(index.ts lines 334-343) and the success-envelope field `data`
(index.ts lines 87-88, 205-206).  `none` models an absent field. -/
structure JsonObj where
  message : Option String
  code : Option String
  errors : Option (List FieldError)
  error : Option NestedError
  data : Option AuthResult
deriving DecidableEq, Repr

/-- The observable behaviour of `response.json()` followed by the field
reads the client performs. -/
inductive Body where
  | badJson (msg : String)
  | nonObj
  | obj (o : JsonObj)
deriving DecidableEq, Repr

/-- Outcome of the underlying global `fetch`: either it rejects with an
`Error` carrying a message, or it yields a response with a status and a
body. -/
inductive FetchResult where
  | fail (msg : String)
  | resp (status : Nat) (body : Body)
deriving DecidableEq, Repr

/-- The `ok` flag of a fetch `Response`: status in the range 200-299. -/
def statusOk (status : Nat) : Bool :=
  200 ≤ status && status < 300

/-- JavaScript truthiness for an optional string: the empty string is
falsy, so it falls through an `a || b` chain (index.ts lines 358-360). -/
def truthyStr : Option String → Option String
  | some s => if s = "" then none else some s
  | none => none

/-- The chain `a || b || d` over optional strings with JavaScript
truthiness. -/
def jsStrFallback (a b : Option String) (d : String) : String :=
  match truthyStr a with
  | some s => s
  | none =>
    match truthyStr b with
    | some s => s
    | none => d

/-- Message extraction
`errorData.message || errorData.error?.message || "An error occurred"`
(index.ts lines 358-359). -/
def extractMessage (o : JsonObj) : String :=
  jsStrFallback o.message (o.error.bind NestedError.message) "An error occurred"

/-- Code extraction
`errorData.code || errorData.error?.code || "UNKNOWN_ERROR"`
(index.ts line 360). -/
def extractCode (o : JsonObj) : String :=
  jsStrFallback o.code (o.error.bind NestedError.code) "UNKNOWN_ERROR"

/-- Errors extraction `errorData.errors || errorData.error?.errors`
(index.ts line 361); an array, even empty, is truthy. -/
def extractErrors (o : JsonObj) : Option (List FieldError) :=
  o.errors.orElse (fun _ => o.error.bind NestedError.errors)

/-- Embedding of `AuthClient.handleErrorResponse` (index.ts lines
320-374): decodes a non-2xx response into the `AuthError` it throws. -/
def handleErrorResponse (status : Nat) (body : Body) : AuthError :=
  match body with
  | .badJson _ =>
    mkAuthError ("Request failed with status " ++ toString status)
      (some "UNKNOWN_ERROR") (some status) none
  | .nonObj =>
    mkAuthError "Invalid error response format"
      (some "UNKNOWN_ERROR") (some status) none
  | .obj o =>
    let message := extractMessage o
    let code := extractCode o
    let errors := extractErrors o
    if status = 401 then mkAuthenticationError message status
    else if status = 404 then mkNotFoundError message status
    else if status = 422 then mkValidationError message errors
    else mkAuthError message (some code) (some status) errors

/-- The fixed key namespace of `StorageManager`
(storage.ts line 34, default argument). -/
def storagePfx : String := "auth_sdk_"

/-- JavaScript `key.startsWith(prfx)`: the second string is a prefix of
the first. -/
def strStartsWith (s p : String) : Bool :=
  p.data.isPrefixOf s.data

/-- A storage backend as `StorageManager.clear` observes it
(storage.ts lines 80-99): whether the live backend is
`globalThis.localStorage` itself, whether it exposes `length` and `key`
(enumeration), and its key-value entries in index order. -/
structure StorageState where
  isGlobalLS : Bool
  hasEnum : Bool
  items : List (String × String)
deriving DecidableEq, Repr

/-- Embedding of `StorageManager.clear` (storage.ts lines 80-99): only
when the live backend is the global `localStorage` object and it supports
enumeration are the keys starting with the adapter's namespace collected
and removed; otherwise nothing happens. -/
def storageClear (pfx : String) (st : StorageState) : StorageState :=
  if st.isGlobalLS && st.hasEnum then
    { st with items := st.items.filter (fun kv => !(strStartsWith kv.fst pfx)) }
  else st

/-- The mutable state of one `AuthClient` instance that the operations
touch: the cached `currentUser` (index.ts line 28) and the storage
manager's backend. -/
structure ClientState where
  currentUser : Option User
  storage : StorageState
deriving DecidableEq, Repr

/-- `AuthClient.getCurrentUser` (index.ts lines 246-248). -/
def getCurrentUser (s : ClientState) : Option User :=
  s.currentUser

/-- `AuthClient.isAuthenticated` (index.ts lines 253-255):
`this.currentUser !== null`. -/
def isAuthenticated (s : ClientState) : Bool :=
  s.currentUser.isSome

/-- An event emission `this.emit(name, payload)` performed by an
operation, with its payload. -/
inductive EmittedEvent where
  | signInEv (u : User)
  | signOutEv
  | userChangedEv (u : Option User)
deriving DecidableEq, Repr

/-- Whether an emitted event is a `userChanged` emission. -/
def isUserChangedEv : EmittedEvent → Bool
  | .userChangedEv _ => true
  | _ => false

/-- Number of `userChanged` emissions in a trace. -/
def countUserChanged (l : List EmittedEvent) : Nat :=
  l.countP isUserChangedEv

deriving instance DecidableEq for Except

/-- Result of one `AuthClient` operation: the post state, the events it
emitted in order (all emitted synchronously before the promise settles),
and the settled outcome — `Except.error` models a rejected promise. -/
structure OpResult (α : Type) where
  state : ClientState
  events : List EmittedEvent
  outcome : Except AuthError α
deriving Repr

/-- An exception in flight inside an operation body: either a taxonomy
error (`instanceof AuthError`) or a plain JavaScript `Error` with a
message (a JSON `SyntaxError`, a `TypeError` from an undefined field
read). -/
inductive Exc where
  | authErr (e : AuthError)
  | jsErr (msg : String)
deriving DecidableEq, Repr

/-- Message of the `TypeError` raised by reading a property of
`undefined` when a success body lacks the expected `data` envelope. -/
def typeErrorMsg : String :=
  "Cannot read properties of undefined"

/-- The shared try body of `signUp` and `signIn` (index.ts lines 72-95 and
110-133) up to the state update: fetch, raise the decoded error on a
non-ok response, otherwise parse the body and read `result.data`.  A
rejection of the underlying `fetch` is wrapped into a `NetworkError` by
the private `fetch` wrapper (index.ts lines 300-315) before anything else
sees it. -/
def signAux (fr : FetchResult) : Except Exc AuthResult :=
  match fr with
  | .fail msg => .error (.authErr (mkNetworkError msg))
  | .resp status body =>
    if statusOk status then
      match body with
      | .badJson msg => .error (.jsErr msg)
      | .nonObj => .error (.jsErr typeErrorMsg)
      | .obj o =>
        match o.data with
        | none => .error (.jsErr typeErrorMsg)
        | some d => .ok d
    else .error (.authErr (handleErrorResponse status body))

/-- The catch clause of `signUp` and `signIn` (index.ts lines 96-103 and
134-141): an error already in the taxonomy is re-thrown unchanged, any
other error is wrapped into a `NetworkError` carrying its message. -/
def signCatch : Exc → AuthError
  | .authErr e => e
  | .jsErr msg => mkNetworkError msg

/-- Embedding of `AuthClient.signUp` (index.ts lines 71-104): on success
the cached user is replaced by the decoded user and `signIn` then
`userChanged` are emitted; on failure the state is untouched and the
caught error is re-raised (possibly wrapped). -/
def signUp (s : ClientState) (fr : FetchResult) : OpResult AuthResult :=
  match signAux fr with
  | .ok r =>
    ⟨{ s with currentUser := some r.user },
      [.signInEv r.user, .userChangedEv (some r.user)], .ok r⟩
  | .error e => ⟨s, [], .error (signCatch e)⟩

/-- Embedding of `AuthClient.signIn` (index.ts lines 109-142); its body
is line-for-line the same as `signUp` apart from the endpoint. -/
def signIn (s : ClientState) (fr : FetchResult) : OpResult AuthResult :=
  match signAux fr with
  | .ok r =>
    ⟨{ s with currentUser := some r.user },
      [.signInEv r.user, .userChangedEv (some r.user)], .ok r⟩
  | .error e => ⟨s, [], .error (signCatch e)⟩

/-- The local cleanup both branches of `signOut` perform (index.ts lines
162-166 and 168-172): cached user to null, storage cleared. -/
def signOutClear (s : ClientState) : ClientState :=
  { s with currentUser := none, storage := storageClear storagePfx s.storage }

/-- Embedding of `AuthClient.signOut` (index.ts lines 147-181): local
state is cleared and `signOut` then `userChanged(null)` emitted on every
path; a failure is still raised afterwards, re-thrown unchanged when it
is a taxonomy error. -/
def signOut (s : ClientState) (fr : FetchResult) : OpResult Unit :=
  match fr with
  | .fail msg =>
    ⟨signOutClear s, [.signOutEv, .userChangedEv none],
      .error (mkNetworkError msg)⟩
  | .resp status body =>
    if statusOk status then
      ⟨signOutClear s, [.signOutEv, .userChangedEv none], .ok ()⟩
    else
      ⟨signOutClear s, [.signOutEv, .userChangedEv none],
        .error (handleErrorResponse status body)⟩

/-- The catch clause of `getUser` (index.ts lines 211-222): an
`AuthenticationError` clears the cached user and resolves to null, any
other taxonomy error is re-thrown, anything else is wrapped into a
`NetworkError`. -/
def getUserCatch (s : ClientState) (e : Exc) :
    ClientState × Except AuthError (Option User) :=
  match e with
  | .authErr a =>
    if a.kind = ErrKind.authentication then
      ({ s with currentUser := none }, .ok none)
    else (s, .error a)
  | .jsErr msg => (s, .error (mkNetworkError msg))

/-- Embedding of `AuthClient.getUser` (index.ts lines 186-223): a 401
response short-circuits to a null result with the cached user cleared; a
success replaces the cached user with `result.data.user`; every other
failure goes through the catch clause.  No event is emitted on any
path. -/
def getUser (s : ClientState) (fr : FetchResult) : OpResult (Option User) :=
  match fr with
  | .fail msg =>
    let p := getUserCatch s (.authErr (mkNetworkError msg))
    ⟨p.fst, [], p.snd⟩
  | .resp status body =>
    if statusOk status then
      match body with
      | .badJson msg =>
        let p := getUserCatch s (.jsErr msg)
        ⟨p.fst, [], p.snd⟩
      | .nonObj =>
        let p := getUserCatch s (.jsErr typeErrorMsg)
        ⟨p.fst, [], p.snd⟩
      | .obj o =>
        match o.data with
        | none =>
          let p := getUserCatch s (.jsErr typeErrorMsg)
          ⟨p.fst, [], p.snd⟩
        | some d =>
          ⟨{ s with currentUser := some d.user }, [], .ok (some d.user)⟩
    else if status = 401 then
      ⟨{ s with currentUser := none }, [], .ok none⟩
    else
      let p := getUserCatch s (.authErr (handleErrorResponse status body))
      ⟨p.fst, [], p.snd⟩

/-- A handler callback modelled by its identity, the only thing the
registry compares. -/
abbrev Handler := Nat

/-- The `eventListeners` field (index.ts lines 29-30): a map from event
name to a `Set` of handlers, embedded as an association list whose sets
keep insertion order. -/
abbrev Registry := List (String × List Handler)

/-- Lookup of `this.eventListeners.get(event)`. -/
def regGet (r : Registry) (e : String) : Option (List Handler) :=
  (r.find? (fun p => p.fst == e)).map Prod.snd

/-- The handlers registered for an event (empty when none). -/
def regHandlers (r : Registry) (e : String) : List Handler :=
  (regGet r e).getD []

/-- `Set.add`: appends the handler unless it is already a member. -/
def setAdd (l : List Handler) (h : Handler) : List Handler :=
  if h ∈ l then l else l ++ [h]

/-- Embedding of `AuthClient.on` (index.ts lines 260-268): create an
empty set for the event when absent, then add the handler to it. -/
def regOn (r : Registry) (e : String) (h : Handler) : Registry :=
  let r1 := if (regGet r e).isSome then r else r ++ [(e, [])]
  r1.map (fun p => if p.fst == e then (p.fst, setAdd p.snd h) else p)

/-- Embedding of `AuthClient.off` (index.ts lines 273-278): when the
event has a listener set, delete the handler from it; otherwise do
nothing. -/
def regOff (r : Registry) (e : String) (h : Handler) : Registry :=
  r.map (fun p => if p.fst == e then (p.fst, p.snd.filter (fun x => x != h)) else p)

/-- The delivery loop of `AuthClient.emit` (index.ts lines 283-294) over
a listener list, parameterised by which handlers raise (`beh h = true`
means handler `h` throws when invoked).  Returns the handlers invoked, in
order, and the handlers whose exception was caught and logged: the
try/catch around each call makes every handler run regardless of earlier
failures. -/
def emitInvoke (l : List Handler) (beh : Handler → Bool) :
    List Handler × List Handler :=
  match l with
  | [] => ([], [])
  | h :: t =>
    let p := emitInvoke t beh
    (h :: p.fst, if beh h then h :: p.snd else p.snd)

/-- Embedding of `AuthClient.emit` (index.ts lines 283-294): invoke every
handler registered for the event. -/
def regEmit (r : Registry) (e : String) (beh : Handler → Bool) :
    List Handler × List Handler :=
  emitInvoke (regHandlers r e) beh

/-- Well-formedness of a registry as produced by `Map` and `Set`: event
keys are pairwise distinct and no set holds a duplicate handler. -/
def regWF (r : Registry) : Prop :=
  (r.map Prod.fst).Nodup ∧ ∀ p ∈ r, p.snd.Nodup

/-- The provider state owned by `AuthProvider` (react.tsx lines 42-44):
`user`, `isLoading`, `error`. -/
structure ProviderState where
  user : Option User
  isLoading : Bool
  error : Option AuthError
deriving DecidableEq, Repr

/-- Embedding of the `signUp` wrapper (react.tsx lines 103-120),
parameterised by the settled outcome of the delegated
`client.signUp(data)` call: set loading, reset the error, then on success
store the user and return the result, on failure store the error and
re-throw it; `finally` clears the loading flag on both paths. -/
def providerSignUp (st : ProviderState) (res : Except AuthError AuthResult) :
    ProviderState × Except AuthError AuthResult :=
  let st1 := { st with isLoading := true, error := none }
  match res with
  | .ok r => ({ st1 with user := some r.user, isLoading := false }, .ok r)
  | .error e => ({ st1 with error := some e, isLoading := false }, .error e)

/-- Embedding of the `signIn` wrapper (react.tsx lines 122-139); same
shape as the `signUp` wrapper. -/
def providerSignIn (st : ProviderState) (res : Except AuthError AuthResult) :
    ProviderState × Except AuthError AuthResult :=
  let st1 := { st with isLoading := true, error := none }
  match res with
  | .ok r => ({ st1 with user := some r.user, isLoading := false }, .ok r)
  | .error e => ({ st1 with error := some e, isLoading := false }, .error e)

/-- Embedding of the `signOut` wrapper (react.tsx lines 141-154): on
success also clears the local user; on failure stores the error and
re-throws. -/
def providerSignOut (st : ProviderState) (res : Except AuthError Unit) :
    ProviderState × Except AuthError Unit :=
  let st1 := { st with isLoading := true, error := none }
  match res with
  | .ok _ => ({ st1 with user := none, isLoading := false }, .ok ())
  | .error e => ({ st1 with error := some e, isLoading := false }, .error e)

/-- Embedding of the `refreshUser` wrapper (react.tsx lines 156-168):
sets loading (without resetting the error), stores the fetched user on
success; on failure stores the error, sets the user to null, and — its
catch clause not re-throwing — resolves normally. -/
def providerRefreshUser (st : ProviderState)
    (res : Except AuthError (Option User)) :
    ProviderState × Except AuthError Unit :=
  let st1 := { st with isLoading := true }
  match res with
  | .ok u => ({ st1 with user := u, isLoading := false }, .ok ())
  | .error e =>
    ({ st1 with error := some e, user := none, isLoading := false }, .ok ())

/-! Helper lemmas about the embedded definitions. -/

theorem emitInvoke_fst (l : List Handler) (beh : Handler → Bool) :
    (emitInvoke l beh).fst = l := by
  induction l with
  | nil => rfl
  | cons h t ih => simp [emitInvoke, ih]

theorem emitInvoke_snd (l : List Handler) (beh : Handler → Bool) :
    (emitInvoke l beh).snd = l.filter beh := by
  induction l with
  | nil => rfl
  | cons h t ih =>
    by_cases hb : beh h <;> simp [emitInvoke, ih, List.filter_cons, hb]

theorem setAdd_mem (l : List Handler) (h : Handler) : h ∈ setAdd l h := by
  unfold setAdd
  split
  · assumption
  · simp

theorem setAdd_of_mem {l : List Handler} {h : Handler} (hm : h ∈ l) :
    setAdd l h = l := by
  unfold setAdd; simp [hm]

theorem setAdd_idem (l : List Handler) (h : Handler) :
    setAdd (setAdd l h) h = setAdd l h :=
  setAdd_of_mem (setAdd_mem l h)

theorem setAdd_count {l : List Handler} (h : Handler) (hn : l.Nodup) :
    (setAdd l h).count h = 1 := by
  unfold setAdd
  split
  · exact List.count_eq_one_of_mem hn (by assumption)
  · rw [List.count_append, List.count_eq_zero_of_not_mem (by assumption)]
    simp

/-- The per-entry update `regOn` maps over the registry. -/
def upd (e : String) (h : Handler) (p : String × List Handler) :
    String × List Handler :=
  if p.fst == e then (p.fst, setAdd p.snd h) else p

theorem upd_fst (e : String) (h : Handler) (p : String × List Handler) :
    (upd e h p).fst = p.fst := by
  unfold upd; split <;> rfl

theorem regOn_eq_map (r : Registry) (e : String) (h : Handler) :
    regOn r e h =
      (if (regGet r e).isSome then r else r ++ [(e, [])]).map (upd e h) := by
  rfl

theorem regGet_map_upd (r : Registry) (e : String) (h : Handler) :
    regGet (r.map (upd e h)) e = (regGet r e).map (fun l => setAdd l h) := by
  induction r with
  | nil => rfl
  | cons p t ih =>
    cases hp : (p.fst == e) with
    | true =>
      simp only [regGet, List.map_cons, List.find?_cons, upd_fst, hp]
      simp [upd, hp]
    | false =>
      simp only [regGet, List.map_cons, List.find?_cons, upd_fst, hp]
      exact ih

theorem regGet_append (r r' : Registry) (e : String) :
    regGet (r ++ r') e = (regGet r e).or (regGet r' e) := by
  unfold regGet
  rw [List.find?_append]
  cases r.find? (fun p => p.fst == e) <;> simp

theorem regGet_regOn (r : Registry) (e : String) (h : Handler) :
    regGet (regOn r e h) e = some (setAdd (regHandlers r e) h) := by
  rw [regOn_eq_map]
  cases hg : regGet r e with
  | some l =>
    have hh : regHandlers r e = l := by simp [regHandlers, hg]
    rw [if_pos (show (some l).isSome = true from rfl), regGet_map_upd, hg, hh]
    rfl
  | none =>
    have hh : regHandlers r e = [] := by simp [regHandlers, hg]
    rw [if_neg (show ¬(none : Option (List Handler)).isSome = true by simp),
      regGet_map_upd, regGet_append, hg, hh]
    have h1 : regGet [(e, [])] e = some [] := by
      simp [regGet, List.find?_cons]
    rw [h1]
    rfl

theorem regOn_idem (r : Registry) (e : String) (h : Handler) :
    regOn (regOn r e h) e h = regOn r e h := by
  have hs : (regGet (regOn r e h) e).isSome := by
    rw [regGet_regOn]; rfl
  rw [regOn_eq_map (regOn r e h), if_pos hs, regOn_eq_map, List.map_map]
  apply List.map_congr_left
  intro p _
  simp only [Function.comp]
  unfold upd
  split
  · simp_all [setAdd_idem]
  · rfl

theorem regHandlers_regOn_twice (r : Registry) (e : String) (h : Handler) :
    regHandlers (regOn (regOn r e h) e h) e = setAdd (regHandlers r e) h := by
  rw [regOn_idem]
  unfold regHandlers
  rw [regGet_regOn]
  rfl

theorem regHandlers_nodup (r : Registry) (e : String)
    (hwf : regWF r) : (regHandlers r e).Nodup := by
  unfold regHandlers regGet
  cases hf : r.find? (fun p => p.fst == e) with
  | none => simp
  | some q =>
    have hq : q ∈ r := List.mem_of_find?_eq_some hf
    simpa using hwf.2 q hq

theorem find?_key_unique (r : Registry) (p : String × List Handler)
    (hk : (r.map Prod.fst).Nodup) (hp : p ∈ r) :
    r.find? (fun q => q.fst == p.fst) = some p := by
  induction r with
  | nil => cases hp
  | cons q t ih =>
    rw [List.map_cons, List.nodup_cons] at hk
    rcases List.mem_cons.mp hp with h1 | h1
    · subst h1
      exact List.find?_cons_of_pos _ (by simp)
    · have hne : ¬(q.fst == p.fst) = true := by
        intro hb
        have : q.fst = p.fst := by simpa using hb
        exact hk.1 (this ▸ List.mem_map_of_mem Prod.fst h1)
      rw [@List.find?_cons_of_neg (String × List Handler)
        (fun q => q.fst == p.fst) q t hne]
      exact ih hk.2 h1

theorem regOff_not_mem (r : Registry) (e : String) (h : Handler)
    (hwf : regWF r) (hm : h ∉ regHandlers r e) :
    regOff r e h = r := by
  unfold regOff
  have hid : ∀ p ∈ r,
      (if p.fst == e then (p.fst, p.snd.filter (fun x => x != h)) else p) = p := by
    intro p hp
    by_cases hpe : (p.fst == e) = true
    · have hfe : p.fst = e := by simpa using hpe
      have hfind : r.find? (fun q => q.fst == e) = some p := by
        rw [← hfe]
        exact find?_key_unique r p hwf.1 hp
      have hhand : regHandlers r e = p.snd := by
        simp [regHandlers, regGet, hfind]
      rw [hhand] at hm
      have hfil : p.snd.filter (fun x => x != h) = p.snd := by
        rw [List.filter_eq_self]
        intro a ha
        simp only [bne_iff_ne, ne_eq, decide_eq_true_eq]
        intro haa
        exact hm (haa ▸ ha)
      rw [if_pos hpe, hfil]
    · rw [if_neg hpe]
  calc r.map (fun p => if p.fst == e then (p.fst, p.snd.filter (fun x => x != h)) else p)
      = r.map id := List.map_congr_left (by simpa using hid)
    _ = r := List.map_id r

theorem handleErrorResponse_kind_ne_auth (status : Nat) (body : Body)
    (h : status ≠ 401) :
    (handleErrorResponse status body).kind ≠ ErrKind.authentication := by
  cases body with
  | badJson msg => simp [handleErrorResponse, mkAuthError]
  | nonObj => simp [handleErrorResponse, mkAuthError]
  | obj o =>
    simp only [handleErrorResponse]
    rw [if_neg h]
    split_ifs <;>
      simp [mkNotFoundError, mkValidationError, mkAuthError]

theorem signOut_state (s : ClientState) (fr : FetchResult) :
    (signOut s fr).state = signOutClear s := by
  cases fr with
  | fail m => rfl
  | resp st b =>
    by_cases h1 : statusOk st <;> simp [signOut, h1]

theorem signOut_events (s : ClientState) (fr : FetchResult) :
    (signOut s fr).events = [.signOutEv, .userChangedEv none] := by
  cases fr with
  | fail m => rfl
  | resp st b =>
    by_cases h1 : statusOk st <;> simp [signOut, h1]

theorem getUser_events (s : ClientState) (fr : FetchResult) :
    (getUser s fr).events = [] := by
  cases fr with
  | fail m => rfl
  | resp st b =>
    by_cases h1 : statusOk st
    · cases b with
      | badJson m => simp [getUser, h1]
      | nonObj => simp [getUser, h1]
      | obj o =>
        cases hd : o.data with
        | none => simp [getUser, h1, hd]
        | some d => simp [getUser, h1, hd]
    · by_cases h2 : st = 401
      · subst h2; simp [getUser, h1]
      · simp [getUser, h1, h2]

/-! Concrete sample values used by witnesses and counterexamples. -/

/-- A sample user. -/
def sampleUser : User := ⟨"u1", "alice@example.com", "Alice", none, none⟩

/-- A sample tenant application. -/
def sampleApp : Application := ⟨"app_1", "Demo"⟩

/-- A sample successful auth envelope. -/
def sampleResult : AuthResult := ⟨sampleUser, sampleApp, none⟩

/-- A sample well-formed success body `{data: sampleResult}`. -/
def sampleObj : JsonObj := ⟨none, none, none, none, some sampleResult⟩

/-- A sample browser `localStorage` backend holding one namespaced and
one unrelated key. -/
def sampleStorage : StorageState :=
  ⟨true, true, [("auth_sdk_token", "t"), ("other", "x")]⟩

/-- A sample unauthenticated client state. -/
def sampleState : ClientState := ⟨none, sampleStorage⟩

/-- A sample authenticated client state. -/
def authState : ClientState := ⟨some sampleUser, sampleStorage⟩

/-- The spec's 422 validation example body
`{message:"bad input", errors:[{field:"email",message:"invalid",code:"INVALID"}]}`. -/
def specObj : JsonObj :=
  ⟨some "bad input", none, some [⟨"email", "invalid", "INVALID"⟩], none, none⟩


/-- C5: in every client state, `isAuthenticated()` returns true exactly
when the cached current user is non-null, `getCurrentUser()` returns the
cached user itself, and this equivalence holds in the post state of every
operation. -/
theorem claim_C5_theorem (s : ClientState) (fr : FetchResult) :
    (isAuthenticated s = true ↔ getCurrentUser s ≠ none)
    ∧ getCurrentUser s = s.currentUser
    ∧ (isAuthenticated (signUp s fr).state = true ↔
        getCurrentUser (signUp s fr).state ≠ none)
    ∧ (isAuthenticated (signIn s fr).state = true ↔
        getCurrentUser (signIn s fr).state ≠ none)
    ∧ (isAuthenticated (signOut s fr).state = true ↔
        getCurrentUser (signOut s fr).state ≠ none)
    ∧ (isAuthenticated (getUser s fr).state = true ↔
        getCurrentUser (getUser s fr).state ≠ none) := by
  refine ⟨?_, rfl, ?_, ?_, ?_, ?_⟩ <;>
    simp [isAuthenticated, getCurrentUser, Option.isSome_iff_ne_none]

/-- C7: during emission, every registered handler for the event is
invoked no matter which handlers raise; a raising handler is exactly one
that gets caught and logged, and `emit` itself returns normally. -/
theorem claim_C7_theorem (r : Registry) (e : String) (beh : Handler → Bool) :
    (regEmit r e beh).fst = regHandlers r e
    ∧ (regEmit r e beh).snd = (regHandlers r e).filter beh :=
  ⟨emitInvoke_fst _ _, emitInvoke_snd _ _⟩

/-- C9 counterexample: on a failing delegate, the `refreshUser` wrapper
resets the shared user to null (it was `some sampleUser`) and resolves
normally instead of re-raising the stored error, so the claim fails for
the `refreshUser` action. -/
theorem claim_C9_counterexample :
    (⟨some sampleUser, false, none⟩ : ProviderState).user = some sampleUser
    ∧ (providerRefreshUser ⟨some sampleUser, false, none⟩
        (.error (mkNetworkError "boom"))).fst.user = none
    ∧ (providerRefreshUser ⟨some sampleUser, false, none⟩
        (.error (mkNetworkError "boom"))).fst.error = some (mkNetworkError "boom")
    ∧ ¬((providerRefreshUser ⟨some sampleUser, false, none⟩
        (.error (mkNetworkError "boom"))).fst.user
          = (⟨some sampleUser, false, none⟩ : ProviderState).user)
    ∧ (providerRefreshUser ⟨some sampleUser, false, none⟩
        (.error (mkNetworkError "boom"))).snd = .ok ()
    ∧ ¬((providerRefreshUser ⟨some sampleUser, false, none⟩
        (.error (mkNetworkError "boom"))).snd
          = Except.error (mkNetworkError "boom")) := by
  refine ⟨rfl, rfl, rfl, by simp [providerRefreshUser], rfl,
    by simp [providerRefreshUser]⟩

/-- C9 amended: a failing delegated operation makes the `signUp`,
`signIn` and `signOut` wrappers store the typed error, clear the loading
flag, leave the shared user unchanged and re-raise the error; the
`refreshUser` wrapper stores the error and clears loading but resets the
shared user to null and swallows the error (its promise resolves). -/
theorem claim_C9_theorem (st : ProviderState) (e : AuthError) :
    ((providerSignUp st (.error e)).fst.user = st.user
      ∧ (providerSignUp st (.error e)).fst.error = some e
      ∧ (providerSignUp st (.error e)).fst.isLoading = false
      ∧ (providerSignUp st (.error e)).snd = .error e)
    ∧ ((providerSignIn st (.error e)).fst.user = st.user
      ∧ (providerSignIn st (.error e)).fst.error = some e
      ∧ (providerSignIn st (.error e)).fst.isLoading = false
      ∧ (providerSignIn st (.error e)).snd = .error e)
    ∧ ((providerSignOut st (.error e)).fst.user = st.user
      ∧ (providerSignOut st (.error e)).fst.error = some e
      ∧ (providerSignOut st (.error e)).fst.isLoading = false
      ∧ (providerSignOut st (.error e)).snd = .error e)
    ∧ ((providerRefreshUser st (.error e)).fst.user = none
      ∧ (providerRefreshUser st (.error e)).fst.error = some e
      ∧ (providerRefreshUser st (.error e)).fst.isLoading = false
      ∧ (providerRefreshUser st (.error e)).snd = .ok ()) :=
  ⟨⟨rfl, rfl, rfl, rfl⟩, ⟨rfl, rfl, rfl, rfl⟩,
    ⟨rfl, rfl, rfl, rfl⟩, ⟨rfl, rfl, rfl, rfl⟩⟩

/-- C8 counterexample: a live backend that supports enumeration (has
`length` and `key`) but is not the global `localStorage` object keeps a
key with the adapter namespace after `clear()`, so `clear()` does not
remove the prefixed keys of every enumeration-capable backend. -/
theorem claim_C8_counterexample :
    (⟨false, true, [("auth_sdk_token", "t"), ("other", "x")]⟩
        : StorageState).hasEnum = true
    ∧ (strStartsWith "auth_sdk_token" storagePfx) = true
    ∧ storageClear storagePfx ⟨false, true, [("auth_sdk_token", "t"), ("other", "x")]⟩
        = ⟨false, true, [("auth_sdk_token", "t"), ("other", "x")]⟩
    ∧ ("auth_sdk_token", "t") ∈ (storageClear storagePfx
        ⟨false, true, [("auth_sdk_token", "t"), ("other", "x")]⟩).items := by
  refine ⟨rfl, by decide, rfl, by decide⟩

/-- C8 amended: `clear()` removes exactly the namespaced keys only when
the live backend is the global browser `localStorage` object and that
object supports enumeration; for every other backend — including an
injected one that supports enumeration — `clear()` returns without
throwing and leaves the backend, prefixed keys included, untouched. -/
theorem claim_C8_theorem (pfx : String) (st : StorageState)
    (kv : String × String) :
    (st.isGlobalLS = true → st.hasEnum = true →
      (kv ∈ (storageClear pfx st).items ↔
        kv ∈ st.items ∧ strStartsWith kv.fst pfx = false))
    ∧ (st.isGlobalLS = false ∨ st.hasEnum = false → storageClear pfx st = st) := by
  constructor
  · intro h1 h2
    simp [storageClear, h1, h2, List.mem_filter]
  · intro h
    unfold storageClear
    rcases h with h | h <;> simp [h]

/-- C8 witness: instantiation of the amended clause on the sample
browser backend and on a non-browser backend. -/
theorem claim_C8_witness :
    sampleStorage.isGlobalLS = true
    ∧ sampleStorage.hasEnum = true
    ∧ (("auth_sdk_token", "t") ∈ (storageClear storagePfx sampleStorage).items ↔
        ("auth_sdk_token", "t") ∈ sampleStorage.items
          ∧ (strStartsWith "auth_sdk_token" storagePfx) = false)
    ∧ storageClear storagePfx ⟨false, false, [("auth_sdk_token", "t")]⟩
        = ⟨false, false, [("auth_sdk_token", "t")]⟩ :=
  ⟨rfl, rfl,
    (claim_C8_theorem storagePfx sampleStorage ("auth_sdk_token", "t")).1 rfl rfl,
    (claim_C8_theorem storagePfx ⟨false, false, [("auth_sdk_token", "t")]⟩
      ("x", "y")).2 (Or.inl rfl)⟩


/-- C1 counterexample: a successful `getUser()` call replaces the cached
user (none becomes `some sampleUser`) yet emits zero `userChanged`
events, not exactly one as the claim requires for getUser success; the
401 path of `getUser` emits none either. -/
theorem claim_C1_counterexample :
    (getUser sampleState (FetchResult.resp 200 (Body.obj sampleObj))).outcome
        = .ok (some sampleUser)
    ∧ (getUser sampleState (FetchResult.resp 200 (Body.obj sampleObj))).state.currentUser
        = some sampleUser
    ∧ sampleState.currentUser = none
    ∧ countUserChanged
        (getUser sampleState (FetchResult.resp 200 (Body.obj sampleObj))).events = 0
    ∧ countUserChanged
        (getUser authState (FetchResult.resp 401 Body.nonObj)).events = 0 :=
  ⟨rfl, rfl, rfl, rfl, rfl⟩

/-- C1 amended: `signUp` success, `signIn` success and `signOut` (success
or failure) each emit exactly one `userChanged`, carrying the new
cached-user value as payload, synchronously before the operation
settles; `getUser` emits no event at all, even on the success and 401
paths that mutate the cached user. -/
theorem claim_C1_theorem (s : ClientState) (fr : FetchResult) (status : Nat)
    (o : JsonObj) (r : AuthResult) :
    (fr = .resp status (.obj o) → statusOk status = true → o.data = some r →
      (signUp s fr).events
          = [.signInEv r.user, .userChangedEv (getCurrentUser (signUp s fr).state)]
      ∧ countUserChanged (signUp s fr).events = 1
      ∧ (signIn s fr).events
          = [.signInEv r.user, .userChangedEv (getCurrentUser (signIn s fr).state)]
      ∧ countUserChanged (signIn s fr).events = 1)
    ∧ ((signOut s fr).events
          = [.signOutEv, .userChangedEv (getCurrentUser (signOut s fr).state)]
      ∧ countUserChanged (signOut s fr).events = 1)
    ∧ (getUser s fr).events = [] := by
  refine ⟨?_, ⟨?_, ?_⟩, getUser_events s fr⟩
  · intro h1 h2 h3
    subst h1
    have hu : signUp s (FetchResult.resp status (Body.obj o))
        = ⟨{ s with currentUser := some r.user },
            [.signInEv r.user, .userChangedEv (some r.user)], .ok r⟩ := by
      simp [signUp, signAux, h2, h3]
    have hi : signIn s (FetchResult.resp status (Body.obj o))
        = ⟨{ s with currentUser := some r.user },
            [.signInEv r.user, .userChangedEv (some r.user)], .ok r⟩ := by
      simp [signIn, signAux, h2, h3]
    rw [hu, hi]
    exact ⟨rfl, rfl, rfl, rfl⟩
  · rw [signOut_events, signOut_state]
    rfl
  · rw [signOut_events]
    rfl

/-- C1 witness: concrete instantiation on a successful sign-up, a failed
sign-out and a successful getUser. -/
theorem claim_C1_witness :
    statusOk 200 = true
    ∧ sampleObj.data = some sampleResult
    ∧ (signUp sampleState (FetchResult.resp 200 (Body.obj sampleObj))).events
        = [.signInEv sampleUser,
            .userChangedEv (getCurrentUser
              (signUp sampleState (FetchResult.resp 200 (Body.obj sampleObj))).state)]
    ∧ countUserChanged
        (signUp sampleState (FetchResult.resp 200 (Body.obj sampleObj))).events = 1
    ∧ countUserChanged (signOut sampleState (FetchResult.fail "down")).events = 1
    ∧ (getUser sampleState (FetchResult.resp 200 (Body.obj sampleObj))).events = [] := by
  have t1 := claim_C1_theorem sampleState
    (FetchResult.resp 200 (Body.obj sampleObj)) 200 sampleObj sampleResult
  have t2 := claim_C1_theorem sampleState (FetchResult.fail "down") 200
    sampleObj sampleResult
  have h := t1.1 rfl rfl rfl
  exact ⟨rfl, rfl, h.1, h.2.1, t2.2.1.2, t1.2.2⟩

/-- C2: a successful `signIn`/`signUp` leaves `getCurrentUser()` equal to
the user decoded from the envelope and `isAuthenticated()` true; after
`signOut`, on every network outcome, the cached user is null, the storage
manager's `clear` has been applied and `isAuthenticated()` is false,
while a failing sign-out still raises the decoded taxonomy error to the
caller after that cleanup. -/
theorem claim_C2_theorem (s : ClientState) (fr : FetchResult) (status : Nat)
    (o : JsonObj) (r : AuthResult) (msg : String) (body : Body) :
    (fr = .resp status (.obj o) → statusOk status = true → o.data = some r →
      getCurrentUser (signUp s fr).state = some r.user
      ∧ isAuthenticated (signUp s fr).state = true
      ∧ (signUp s fr).outcome = .ok r
      ∧ getCurrentUser (signIn s fr).state = some r.user
      ∧ isAuthenticated (signIn s fr).state = true
      ∧ (signIn s fr).outcome = .ok r)
    ∧ (getCurrentUser (signOut s fr).state = none
      ∧ isAuthenticated (signOut s fr).state = false
      ∧ (signOut s fr).state.storage = storageClear storagePfx s.storage)
    ∧ (signOut s (.fail msg)).outcome = .error (mkNetworkError msg)
    ∧ (statusOk status = false →
        (signOut s (.resp status body)).outcome
          = .error (handleErrorResponse status body)) := by
  refine ⟨?_, ?_, rfl, ?_⟩
  · intro h1 h2 h3
    subst h1
    have hu : signUp s (FetchResult.resp status (Body.obj o))
        = ⟨{ s with currentUser := some r.user },
            [.signInEv r.user, .userChangedEv (some r.user)], .ok r⟩ := by
      simp [signUp, signAux, h2, h3]
    have hi : signIn s (FetchResult.resp status (Body.obj o))
        = ⟨{ s with currentUser := some r.user },
            [.signInEv r.user, .userChangedEv (some r.user)], .ok r⟩ := by
      simp [signIn, signAux, h2, h3]
    rw [hu, hi]
    exact ⟨rfl, rfl, rfl, rfl, rfl, rfl⟩
  · rw [signOut_state]
    exact ⟨rfl, rfl, rfl⟩
  · intro h
    simp [signOut, h]

/-- C2 witness: concrete instantiation on a successful sign-up and on a
sign-out whose request gets a 503 response. -/
theorem claim_C2_witness :
    statusOk 200 = true
    ∧ sampleObj.data = some sampleResult
    ∧ getCurrentUser
        (signUp sampleState (FetchResult.resp 200 (Body.obj sampleObj))).state
          = some sampleUser
    ∧ isAuthenticated
        (signUp sampleState (FetchResult.resp 200 (Body.obj sampleObj))).state = true
    ∧ getCurrentUser (signOut authState (FetchResult.fail "down")).state = none
    ∧ statusOk 503 = false
    ∧ (signOut authState (FetchResult.resp 503 Body.nonObj)).outcome
        = .error (handleErrorResponse 503 Body.nonObj) := by
  have t1 := claim_C2_theorem sampleState
    (FetchResult.resp 200 (Body.obj sampleObj)) 200 sampleObj sampleResult
    "down" Body.nonObj
  have t2 := claim_C2_theorem authState (FetchResult.fail "down") 503
    sampleObj sampleResult "down" Body.nonObj
  have h := t1.1 rfl rfl rfl
  exact ⟨rfl, rfl, h.1, h.2.1, t2.2.1.1, rfl, t2.2.2.2 rfl⟩


/-- C3: `getUser()` treats a 401 response as unauthenticated (cached
user cleared, resolves null, never raises); its catch clause treats any
Authentication-kind error the same way; every other failure is raised
with the state untouched; a success replaces the cached user with the
decoded user and returns it. -/
theorem claim_C3_theorem (s : ClientState) (status : Nat) (body : Body)
    (o : JsonObj) (d : AuthResult) (a : AuthError) (msg : String) :
    ((getUser s (.resp 401 body)).outcome = .ok none
      ∧ (getUser s (.resp 401 body)).state.currentUser = none)
    ∧ (a.kind = ErrKind.authentication →
        getUserCatch s (.authErr a) = ({ s with currentUser := none }, .ok none))
    ∧ (statusOk status = false → status ≠ 401 →
        (getUser s (.resp status body)).outcome
            = .error (handleErrorResponse status body)
        ∧ (getUser s (.resp status body)).state = s)
    ∧ (getUser s (.fail msg)).outcome = .error (mkNetworkError msg)
    ∧ (statusOk status = true → o.data = some d →
        (getUser s (.resp status (.obj o))).state.currentUser = some d.user
        ∧ (getUser s (.resp status (.obj o))).outcome = .ok (some d.user)) := by
  refine ⟨?_, ?_, ?_, rfl, ?_⟩
  · have h1 : statusOk 401 = false := rfl
    constructor <;> simp [getUser, h1]
  · intro ha
    simp [getUserCatch, ha]
  · intro h1 h2
    have hk := handleErrorResponse_kind_ne_auth status body h2
    constructor <;> simp [getUser, getUserCatch, h1, h2, hk]
  · intro h1 h2
    constructor <;> simp [getUser, h1, h2]

/-- C3 witness: concrete instantiation on a 401 response from an
authenticated state, a 500 failure, and a 200 success. -/
theorem claim_C3_witness :
    authState.currentUser = some sampleUser
    ∧ (getUser authState (FetchResult.resp 401 Body.nonObj)).outcome = .ok none
    ∧ (getUser authState (FetchResult.resp 401 Body.nonObj)).state.currentUser = none
    ∧ (mkAuthenticationError "nope" 401).kind = ErrKind.authentication
    ∧ getUserCatch authState (.authErr (mkAuthenticationError "nope" 401))
        = ({ authState with currentUser := none }, .ok none)
    ∧ statusOk 500 = false
    ∧ (getUser authState (FetchResult.resp 500 Body.nonObj)).outcome
        = .error (handleErrorResponse 500 Body.nonObj)
    ∧ statusOk 200 = true
    ∧ sampleObj.data = some sampleResult
    ∧ (getUser sampleState (FetchResult.resp 200 (Body.obj sampleObj))).outcome
        = .ok (some sampleUser) := by
  have t1 := claim_C3_theorem authState 500 Body.nonObj sampleObj sampleResult
    (mkAuthenticationError "nope" 401) "m"
  have t2 := claim_C3_theorem sampleState 200 (Body.obj sampleObj) sampleObj
    sampleResult (mkAuthenticationError "nope" 401) "m"
  refine ⟨rfl, t1.1.1, t1.1.2, rfl, t1.2.1 rfl, rfl,
    (t1.2.2.1 rfl (by decide)).1, rfl, rfl, (t2.2.2.2.2 rfl rfl).2⟩

/-- C4: decoding a non-2xx response raises, per the claim: parse failure
gives a generic `UNKNOWN_ERROR` with the HTTP status and message
`Request failed with status <status>`, a non-object body gives the same
generic error with message `Invalid error response format`, and an
object body maps 401 to an Authentication error, 404 to NotFound, 422 to
Validation carrying the extracted field errors and status 422, and any
other status to a generic error with the extracted code, message, status
and errors. -/
theorem claim_C4_theorem (status : Nat) (msg : String) (o : JsonObj)
    (hs : statusOk status = false) :
    ((handleErrorResponse status (.badJson msg)).kind = ErrKind.base
      ∧ (handleErrorResponse status (.badJson msg)).code = some "UNKNOWN_ERROR"
      ∧ (handleErrorResponse status (.badJson msg)).statusCode = some status
      ∧ (handleErrorResponse status (.badJson msg)).message
          = "Request failed with status " ++ toString status)
    ∧ ((handleErrorResponse status Body.nonObj).kind = ErrKind.base
      ∧ (handleErrorResponse status Body.nonObj).code = some "UNKNOWN_ERROR"
      ∧ (handleErrorResponse status Body.nonObj).statusCode = some status
      ∧ (handleErrorResponse status Body.nonObj).message
          = "Invalid error response format")
    ∧ (status = 401 →
        handleErrorResponse status (.obj o)
          = mkAuthenticationError (extractMessage o) 401)
    ∧ (status = 404 →
        handleErrorResponse status (.obj o)
          = mkNotFoundError (extractMessage o) 404)
    ∧ (status = 422 →
        handleErrorResponse status (.obj o)
          = mkValidationError (extractMessage o) (extractErrors o))
    ∧ (status ≠ 401 → status ≠ 404 → status ≠ 422 →
        handleErrorResponse status (.obj o)
          = mkAuthError (extractMessage o) (some (extractCode o))
              (some status) (extractErrors o)) := by
  refine ⟨⟨rfl, rfl, rfl, rfl⟩, ⟨rfl, rfl, rfl, rfl⟩, ?_, ?_, ?_, ?_⟩
  · intro h; subst h; rfl
  · intro h; subst h; rfl
  · intro h; subst h; rfl
  · intro h1 h2 h3
    simp [handleErrorResponse, h1, h2, h3]

/-- C4 witness: the spec's 422 example body produces a Validation error
carrying exactly the given field errors and status 422; a 404 with a
non-JSON body produces the generic `UNKNOWN_ERROR` with the templated
message; a 500 object body produces the generic error with extracted
fields. -/
theorem claim_C4_witness :
    statusOk 422 = false
    ∧ (handleErrorResponse 422 (.obj specObj)).kind = ErrKind.validation
    ∧ (handleErrorResponse 422 (.obj specObj)).errors
        = some [⟨"email", "invalid", "INVALID"⟩]
    ∧ (handleErrorResponse 422 (.obj specObj)).statusCode = some 422
    ∧ (handleErrorResponse 422 (.obj specObj)).message = "bad input"
    ∧ (handleErrorResponse 404 (.badJson "html")).message
        = "Request failed with status 404"
    ∧ (handleErrorResponse 404 (.badJson "html")).code = some "UNKNOWN_ERROR"
    ∧ handleErrorResponse 500 (.obj specObj)
        = mkAuthError "bad input" (some "UNKNOWN_ERROR") (some 500)
            (some [⟨"email", "invalid", "INVALID"⟩]) := by
  have t1 := claim_C4_theorem 422 "html" specObj (by decide)
  have t2 := claim_C4_theorem 404 "html" specObj (by decide)
  have t3 := claim_C4_theorem 500 "html" specObj (by decide)
  have h422 := t1.2.2.2.2.1 rfl
  refine ⟨rfl, ?_, ?_, ?_, ?_, ?_, ?_, ?_⟩
  · rw [h422]; rfl
  · rw [h422]; rfl
  · rw [h422]; rfl
  · rw [h422]; rfl
  · rw [t2.1.2.2.2]; rfl
  · exact t2.1.2.1
  · rw [t3.2.2.2.2.2 (by decide) (by decide) (by decide)]
    rfl

/-- C6: adding the same handler twice to an event stores it once (the
double registration equals the single one and a subsequent emission
invokes the handler exactly once), and removing a never-registered
handler leaves the registry unchanged and raises nothing. -/
theorem claim_C6_theorem (r : Registry) (e : String) (h : Handler)
    (beh : Handler → Bool) (hwf : regWF r) :
    regOn (regOn r e h) e h = regOn r e h
    ∧ (regEmit (regOn (regOn r e h) e h) e beh).fst.count h = 1
    ∧ (h ∉ regHandlers r e → regOff r e h = r) := by
  refine ⟨regOn_idem r e h, ?_, fun hm => regOff_not_mem r e h hwf hm⟩
  rw [regEmit, emitInvoke_fst, regHandlers_regOn_twice]
  exact setAdd_count h (regHandlers_nodup r e hwf)

/-- C6 witness: concrete instantiation on a registry already holding a
`signIn` handler. -/
theorem claim_C6_witness :
    regWF [("signIn", [9])]
    ∧ (5 ∉ regHandlers [("signIn", [9])] "userChanged")
    ∧ regOn (regOn [("signIn", [9])] "userChanged" 5) "userChanged" 5
        = regOn [("signIn", [9])] "userChanged" 5
    ∧ (regEmit (regOn (regOn [("signIn", [9])] "userChanged" 5) "userChanged" 5)
        "userChanged" (fun x => x == 5)).fst.count 5 = 1
    ∧ regOff [("signIn", [9])] "userChanged" 5 = [("signIn", [9])] := by
  have hwf : regWF [("signIn", [9])] := by
    constructor
    · simp
    · intro p hp
      simp at hp
      subst hp
      simp
  have hm : (5 : Handler) ∉ regHandlers [("signIn", [9])] "userChanged" := by
    simp [regHandlers, regGet, List.find?_cons]
  have t := claim_C6_theorem [("signIn", [9])] "userChanged" 5 (fun x => x == 5) hwf
  exact ⟨hwf, hm, t.1, t.2.1, t.2.2 hm⟩

/-- C10: a failing `signUp`/`signIn` call leaves the cached user (indeed
the whole client state) exactly as before and emits nothing; an error
already in the taxonomy is re-raised unchanged (no double wrapping); a
failure before any response is obtained surfaces as a `NetworkError`
carrying the underlying message. -/
theorem claim_C10_theorem (s : ClientState) (fr : FetchResult) (err : Exc)
    (a : AuthError) (msg : String) :
    (signAux fr = .error err →
      (signUp s fr).state = s ∧ (signUp s fr).events = []
      ∧ (signUp s fr).outcome = .error (signCatch err)
      ∧ (signIn s fr).state = s ∧ (signIn s fr).events = []
      ∧ (signIn s fr).outcome = .error (signCatch err))
    ∧ (signAux fr = .error (.authErr a) →
      (signUp s fr).outcome = .error a ∧ (signIn s fr).outcome = .error a)
    ∧ ((signUp s (.fail msg)).outcome = .error (mkNetworkError msg)
      ∧ (signIn s (.fail msg)).outcome = .error (mkNetworkError msg)
      ∧ (signUp s (.fail msg)).state.currentUser = s.currentUser
      ∧ (signIn s (.fail msg)).state.currentUser = s.currentUser) := by
  refine ⟨?_, ?_, rfl, rfl, rfl, rfl⟩
  · intro h
    constructor
    · simp [signUp, h]
    · refine ⟨?_, ?_, ?_, ?_, ?_⟩ <;> simp [signUp, signIn, h]
  · intro h
    constructor <;> simp [signUp, signIn, h, signCatch]

/-- C10 witness: concrete instantiation on a 500 response (decoded
taxonomy error re-raised unchanged, state untouched) and on a transport
failure (wrapped into a NetworkError). -/
theorem claim_C10_witness :
    signAux (FetchResult.resp 500 Body.nonObj)
        = .error (.authErr (handleErrorResponse 500 Body.nonObj))
    ∧ (signUp authState (FetchResult.resp 500 Body.nonObj)).state = authState
    ∧ (signUp authState (FetchResult.resp 500 Body.nonObj)).outcome
        = .error (handleErrorResponse 500 Body.nonObj)
    ∧ (signIn authState (FetchResult.fail "offline")).outcome
        = .error (mkNetworkError "offline") := by
  have h : signAux (FetchResult.resp 500 Body.nonObj)
      = .error (.authErr (handleErrorResponse 500 Body.nonObj)) := rfl
  have t := claim_C10_theorem authState (FetchResult.resp 500 Body.nonObj)
    (.authErr (handleErrorResponse 500 Body.nonObj))
    (handleErrorResponse 500 Body.nonObj) "offline"
  exact ⟨h, (t.1 h).1, (t.2.1 h).1, t.2.2.2.1⟩


/-- C5 witness: the invariant instantiated on the sample authenticated
state and a concrete operation input. -/
theorem claim_C5_witness :
    (isAuthenticated authState = true ↔ getCurrentUser authState ≠ none)
    ∧ (isAuthenticated (signOut authState (FetchResult.fail "down")).state = true
        ↔ getCurrentUser (signOut authState (FetchResult.fail "down")).state ≠ none) :=
  ⟨(claim_C5_theorem authState (FetchResult.fail "down")).1,
    (claim_C5_theorem authState (FetchResult.fail "down")).2.2.2.2.1⟩

/-- C7 witness: with two registered handlers of which the first raises,
both are still invoked and only the raiser is logged. -/
theorem claim_C7_witness :
    (regEmit [("userChanged", [1, 2])] "userChanged" (fun x => x == 1)).fst
        = regHandlers [("userChanged", [1, 2])] "userChanged"
    ∧ (regEmit [("userChanged", [1, 2])] "userChanged" (fun x => x == 1)).snd
        = (regHandlers [("userChanged", [1, 2])] "userChanged").filter
            (fun x => x == 1) :=
  claim_C7_theorem [("userChanged", [1, 2])] "userChanged" (fun x => x == 1)

/-- C9 witness: the amended per-action behaviour instantiated on a
concrete provider state and error. -/
theorem claim_C9_witness :
    (providerSignIn ⟨none, false, none⟩ (.error (mkNetworkError "down"))).snd
        = .error (mkNetworkError "down")
    ∧ (providerRefreshUser ⟨none, false, none⟩ (.error (mkNetworkError "down"))).snd
        = .ok () :=
  ⟨(claim_C9_theorem ⟨none, false, none⟩ (mkNetworkError "down")).2.1.2.2.2,
    (claim_C9_theorem ⟨none, false, none⟩ (mkNetworkError "down")).2.2.2.2.2.2⟩

end AuthSdk
